import Mathlib

/-!
Shallow embedding of `bindings/python/cntk/sample_installer.py`.

The script has two pure helpers, `module_is_unreleased` and
`default_sample_url`, both reading the module version string, and one
effectful procedure `install_samples(url, localdir, quiet)` that checks the
destination, downloads a zip to a temporary file, extracts it, optionally
runs `pip install -r requirements.txt`, and removes the temporary file in a
`finally` block.  The `__main__` block parses `-u` alias `--url` (default
`default_sample_url()`), `-d` alias `--dir` (default `.`) and `-q` alias `--quiet`.

The pure helpers are embedded as functions of the version string (the
Python code reads the module-level `__version__`).  Python string
operations used by the source (`endswith` on a one-character suffix,
`replace` of one character by another, `string.capwords(s, '-')`,
`s[:-1]`, `os.path.join`) are embedded as executable functions on
`List Char` / `String` below, each mirroring the CPython semantics of the
call as it appears in the source.

The effectful procedure is embedded as a pure function of an environment
`Env` describing the outcome of every external call (filesystem predicates
on `localdir`, the outcome of `urlretrieve`, whether `ZipFile(...).extractall`
succeeds, whether `requirements.txt` is a file afterwards, and the unchecked
return value of `pip.main`).  Its `Result` records the final outcome, the
messages emitted through `show_message`, counters for the external calls,
the argument lists of `pip.main` calls, which transient files remain on
disk after the `finally` block ran, and two instrumentation fields for the
`if not url` defaulting branch.
-/

namespace SampleInstaller

/-! ### Python string primitives used by the source -/

/-- Python `s.endswith(c)` for a one-character suffix `c`: true iff the last
character of `s` equals `c` (false on the empty string). -/
def py_endswith_char (c : Char) (l : List Char) : Bool :=
  match l.getLast? with
  | some x => x == c
  | none => false

/-- Python `s.startswith(c)` for a one-character argument `c`. -/
def py_startswith_char (c : Char) (l : List Char) : Bool :=
  match l with
  | [] => false
  | x :: _ => x == c

/-- Python `s.replace(old, new)` where `old` and `new` are single
characters: every occurrence of `old` is replaced, i.e. a character map. -/
def py_replace_char (old new : Char) (l : List Char) : List Char :=
  l.map (fun c => if c == old then new else c)

/-- Python `s.split(sep)` for a one-character separator: keeps empty
fields, and `"".split(sep) == [""]`. -/
def py_split_char (sep : Char) : List Char → List (List Char)
  | [] => [[]]
  | c :: rest =>
    if c == sep then [] :: py_split_char sep rest
    else
      match py_split_char sep rest with
      | [] => [[c]]
      | w :: ws => (c :: w) :: ws

/-- Python `s.capitalize()`: first character upper-cased, the rest
lower-cased (ASCII behaviour of `Char.toUpper`/`Char.toLower` matches the
source's use on version components). -/
def py_capitalize : List Char → List Char
  | [] => []
  | c :: rest => Char.toUpper c :: rest.map Char.toLower

/-- Python `string.capwords(s, sep)`:
`sep.join(x.capitalize() for x in s.split(sep))`. -/
def py_capwords (sep : Char) (l : List Char) : List Char :=
  List.intercalate [sep] ((py_split_char sep l).map py_capitalize)

/-- CPython `posixpath.join(a, b)` for a single extra component `b`. -/
def ospath_join (a b : String) : String :=
  if py_startswith_char '/' b.data then b
  else if a = "" || py_endswith_char '/' a.data then a ++ b
  else a ++ "/" ++ b

/-! ### Target Resolver: `module_is_unreleased` and `default_sample_url`

Source:
```
def module_is_unreleased():
    return __version__.endswith('+')

def default_sample_url():
    version = __version__
    if module_is_unreleased():
        version = version[:-1]
    version = version.replace('.', '-')
    version = string.capwords(version, '-')
    return 'https://cntk.ai/Samples/CNTK-Samples-%s.zip' % (version)
```
The Python functions read the module-level `__version__`; here it is the
explicit argument `version`. -/

def module_is_unreleased (version : String) : Bool :=
  py_endswith_char '+' version.data

def default_sample_url (version : String) : String :=
  let v0 := version.data
  let v1 := if module_is_unreleased version then v0.dropLast else v0
  let v2 := py_replace_char '.' '-' v1
  let v3 := py_capwords '-' v2
  "https://cntk.ai/Samples/CNTK-Samples-" ++ String.mk v3 ++ ".zip"

/-! ### Environment and result of `install_samples` -/

/-- The exception taxonomy of the spec: `ValueError` for a bad `localdir`
maps to `invalidDestination`; an exception escaping `urlretrieve` maps to
`fetchError`; an exception escaping `ZipFile`/`extractall` maps to
`extractionError`. -/
inductive InstallError where
  | invalidDestination
  | fetchError
  | extractionError
  deriving DecidableEq, Repr

/-- Outcome of `urlretrieve(url)`.  On success it returns the name of the
temporary file it created (a fresh non-empty path).  On failure it raises,
and `partialLeft` records the partially downloaded temporary file it may
have left behind on disk (CPython's `urlretrieve` creates its
`NamedTemporaryFile(delete=False)` before reading the body and does not
remove it when the transfer fails). -/
inductive FetchOutcome where
  | success (tmpname : String)
  | failure (partialLeft : Option String)
  deriving DecidableEq, Repr

/-- Outcomes of the external calls made by one invocation of
`install_samples`, plus the module version string. -/
structure Env where
  /-- `os.path.lexists(localdir)` -/
  localdirLexists : Bool
  /-- `os.path.isdir(localdir)` (only consulted when `localdirLexists`) -/
  localdirIsdir : Bool
  /-- `len(os.listdir(localdir))` (only consulted when a directory) -/
  localdirNumEntries : Nat
  /-- outcome of `urlretrieve(url)` -/
  fetch : FetchOutcome
  /-- whether `ZipFile(zip_filename).extractall(localdir)` succeeds -/
  extractOk : Bool
  /-- `os.path.isfile(requirements_file)` after extraction -/
  reqFileIsfile : Bool
  /-- return value of `pip.main([...])` (never inspected by the source) -/
  pipRet : Int
  /-- the module-level `__version__` string -/
  version : String
  deriving DecidableEq, Repr

/-- Source:
```
def show_message(text):
    if not quiet:
        print(textwrap.fill(text, subsequent_indent=' ' * 4), "\n")
```
Embedded as appending the (unwrapped) text to the message log when not
quiet; `textwrap.fill` only reflows whitespace for display and is elided. -/
def show_message (quiet : Bool) (msgs : List String) (text : String) : List String :=
  if quiet then msgs else msgs ++ [text]

/-- The exact warning text from the source (three adjacent string literals
concatenated by Python). -/
def unreleased_warning : String :=
  "WARNING: You are not on a released CNTK module version. When running into problems running samples, please check https://github.com/Microsoft/CNTK for updated versions"

/-- State at the end of the `try` block body (or at the exception that
aborts it): message log, call counters and arguments, the local variable
`zip_filename`, the transient files currently on disk, and the pending
exception if any. -/
structure TryState where
  msgs : List String
  fetchCalls : Nat
  extractCalls : Nat
  pipCalls : List (List String)
  zip_filename : Option String
  disk : List String
  err : Option InstallError
  deriving DecidableEq, Repr

/-- Body of the `try` block of `install_samples`:
```
show_message('INFO: retrieving ' + url)
zip_filename, message = urlretrieve(url)
show_message('INFO: unzipping to directory ' + localdir)
with zipfile.ZipFile(zip_filename, 'r') as zip_file:
    zip_file.extractall(localdir)
requirements_file = os.path.join(localdir, 'requirements.txt')
if os.path.isfile(requirements_file):
    show_message('INFO: installing requirements')
    pip.main(['install', '-r', requirements_file])
else:
    show_message('WARNING: file %s does not exist, ...' % (requirements_file))
```
When `urlretrieve` raises, the tuple assignment has not happened, so
`zip_filename` keeps its initial value `None` while the partial temporary
file (if any) is on disk. -/
def tryBody (env : Env) (url2 localdir : String) (quiet : Bool) (msgs0 : List String) : TryState :=
  let msgs1 := show_message quiet msgs0 ("INFO: retrieving " ++ url2)
  match env.fetch with
  | .failure partialLeft =>
      { msgs := msgs1, fetchCalls := 1, extractCalls := 0, pipCalls := [],
        zip_filename := none, disk := partialLeft.toList, err := some .fetchError }
  | .success tmpname =>
      let msgs2 := show_message quiet msgs1 ("INFO: unzipping to directory " ++ localdir)
      if env.extractOk then
        let requirements_file := ospath_join localdir "requirements.txt"
        if env.reqFileIsfile then
          { msgs := show_message quiet msgs2 "INFO: installing requirements",
            fetchCalls := 1, extractCalls := 1,
            pipCalls := [["install", "-r", requirements_file]],
            zip_filename := some tmpname, disk := [tmpname], err := none }
        else
          { msgs := show_message quiet msgs2
              ("WARNING: file " ++ requirements_file ++ " does not exist, modules to run the samples may be missing"),
            fetchCalls := 1, extractCalls := 1, pipCalls := [],
            zip_filename := some tmpname, disk := [tmpname], err := none }
      else
        { msgs := msgs2, fetchCalls := 1, extractCalls := 1, pipCalls := [],
          zip_filename := some tmpname, disk := [tmpname], err := some .extractionError }

/-- The `finally` block: `if zip_filename: os.remove(zip_filename)`.
Python truthiness: `None` and the empty string are falsy. -/
def finallyCleanup (zf : Option String) (disk : List String) : List String :=
  match zf with
  | none => disk
  | some s => if s == "" then disk else disk.filter (fun f => f != s)

/-- Python truthiness of the `url` argument (`if not url:`): `None` and
`""` are falsy, every other string is truthy. -/
def py_falsy (url : Option String) : Bool :=
  match url with
  | none => true
  | some s => s == ""

/-- The destination precondition test, verbatim from the source:
`os.path.lexists(localdir) and not (os.path.isdir(localdir) and len(os.listdir(localdir)) == 0)`. -/
def precondFail (env : Env) : Bool :=
  env.localdirLexists && !(env.localdirIsdir && env.localdirNumEntries == 0)

/-- Observable result of one invocation of `install_samples`.
`tempFilesOnDisk` lists the transient download files still existing after
the `finally` block ran.  `urlDefaulted` records whether the `if not url:`
branch was taken, and `urlUsed` the url string the `try` block ran with
(`none` when the precondition raised before the `try` block). -/
structure Result where
  outcome : Except InstallError Unit
  messages : List String
  fetchCalls : Nat
  extractCalls : Nat
  pipCalls : List (List String)
  tempFilesOnDisk : List String
  urlDefaulted : Bool
  urlUsed : Option String
  deriving Repr

/-- Embedding of `install_samples(url, localdir, quiet)`. -/
def install_samples (env : Env) (url : Option String) (localdir : String) (quiet : Bool) : Result :=
  if precondFail env then
    { outcome := .error .invalidDestination, messages := [], fetchCalls := 0,
      extractCalls := 0, pipCalls := [], tempFilesOnDisk := [],
      urlDefaulted := false, urlUsed := none }
  else
    let defaulted := py_falsy url
    let msgs0 : List String :=
      if defaulted && module_is_unreleased env.version then
        show_message quiet [] unreleased_warning
      else []
    let url2 := if defaulted then default_sample_url env.version else url.getD ""
    let st := tryBody env url2 localdir quiet msgs0
    { outcome := match st.err with | some e => .error e | none => .ok ()
      messages := st.msgs
      fetchCalls := st.fetchCalls
      extractCalls := st.extractCalls
      pipCalls := st.pipCalls
      tempFilesOnDisk := finallyCleanup st.zip_filename st.disk
      urlDefaulted := defaulted
      urlUsed := some url2 }

/-- The url value `install_samples` receives from the `__main__` CLI block:
the value of `-u` alias `--url` if given, else the argparse default
`default_sample_url()`.  argparse never passes `None` here. -/
def cli_url (version : String) (userUrl : Option String) : String :=
  match userUrl with
  | some u => u
  | none => default_sample_url version

/-! ### Helper lemmas about the Python string primitives -/

theorem char_toNat_ofNat (n : Nat) (h : n < 55296) : (Char.ofNat n).toNat = n := by
  rw [Char.ofNat, dif_pos (Or.inl h)]
  rfl

theorem toUpper_eq_dot (c : Char) (h : Char.toUpper c = '.') : c = '.' := by
  have h' : (if c.toNat ≥ 97 ∧ c.toNat ≤ 122 then Char.ofNat (c.toNat - 32) else c) = '.' := h
  by_cases hcond : c.toNat ≥ 97 ∧ c.toNat ≤ 122
  · exfalso
    rw [if_pos hcond] at h'
    have h46 := congrArg Char.toNat h'
    rw [char_toNat_ofNat _ (by omega)] at h46
    have hdot : ('.' : Char).toNat = 46 := rfl
    rw [hdot] at h46
    omega
  · rwa [if_neg hcond] at h'

theorem toLower_eq_dot (c : Char) (h : Char.toLower c = '.') : c = '.' := by
  have h' : (if c.toNat ≥ 65 ∧ c.toNat ≤ 90 then Char.ofNat (c.toNat + 32) else c) = '.' := h
  by_cases hcond : c.toNat ≥ 65 ∧ c.toNat ≤ 90
  · exfalso
    rw [if_pos hcond] at h'
    have h46 := congrArg Char.toNat h'
    rw [char_toNat_ofNat _ (by omega)] at h46
    have hdot : ('.' : Char).toNat = 46 := rfl
    rw [hdot] at h46
    omega
  · rwa [if_neg hcond] at h'

theorem py_replace_char_append (old new : Char) (l r : List Char) :
    py_replace_char old new (l ++ r) = py_replace_char old new l ++ py_replace_char old new r := by
  simp [py_replace_char]

theorem py_replace_char_of_not_mem (old new : Char) (l : List Char) (h : old ∉ l) :
    py_replace_char old new l = l := by
  induction l with
  | nil => rfl
  | cons x xs ih =>
    simp only [List.mem_cons, not_or] at h
    have hx : (x == old) = false := by
      simp only [beq_eq_false_iff_ne]
      exact fun hxx => h.1 hxx.symm
    show (if (x == old) = true then new else x) :: py_replace_char old new xs = x :: xs
    rw [hx, ih h.2, if_neg (by simp)]

theorem py_replace_char_cons_self (old new : Char) (r : List Char) :
    py_replace_char old new (old :: r) = new :: py_replace_char old new r := by
  simp [py_replace_char]

theorem py_split_char_of_not_mem (sep : Char) (l : List Char) (h : sep ∉ l) :
    py_split_char sep l = [l] := by
  induction l with
  | nil => rfl
  | cons x xs ih =>
    simp only [List.mem_cons, not_or] at h
    have hx : (x == sep) = false := by
      simp only [beq_eq_false_iff_ne]
      exact fun hxx => h.1 hxx.symm
    rw [py_split_char, if_neg (by simp [hx]), ih h.2]

theorem py_split_char_append (sep : Char) (a rest : List Char) (h : sep ∉ a) :
    py_split_char sep (a ++ sep :: rest) = a :: py_split_char sep rest := by
  induction a with
  | nil =>
    simp only [List.nil_append]
    rw [py_split_char, if_pos (by simp)]
  | cons x xs ih =>
    simp only [List.mem_cons, not_or] at h
    have hx : (x == sep) = false := by
      simp only [beq_eq_false_iff_ne]
      exact fun hxx => h.1 hxx.symm
    simp only [List.cons_append]
    rw [py_split_char, if_neg (by simp [hx]), ih h.2]

theorem join_three (s : Char) (x y z : List Char) :
    List.intercalate [s] [x, y, z] = x ++ s :: (y ++ s :: z) := by
  simp [List.intercalate, List.intersperse]

theorem py_capwords_dash_components (a b c : List Char)
    (ha : '-' ∉ a) (hb : '-' ∉ b) (hc : '-' ∉ c) :
    py_capwords '-' (a ++ '-' :: (b ++ '-' :: c)) =
      py_capitalize a ++ '-' :: (py_capitalize b ++ '-' :: py_capitalize c) := by
  unfold py_capwords
  rw [py_split_char_append '-' a _ ha, py_split_char_append '-' b _ hb,
      py_split_char_of_not_mem '-' c hc]
  rw [List.map_cons, List.map_cons, List.map_singleton, join_three]

theorem dot_not_mem_py_capitalize (l : List Char) (h : '.' ∉ l) : '.' ∉ py_capitalize l := by
  cases l with
  | nil => simp [py_capitalize]
  | cons x xs =>
    simp only [List.mem_cons, not_or] at h
    intro hm
    rw [py_capitalize] at hm
    rcases List.mem_cons.mp hm with h1 | h2
    · exact h.1 (toUpper_eq_dot x h1.symm).symm
    · obtain ⟨y, hy, hyd⟩ := List.mem_map.mp h2
      exact h.2 (by rwa [toLower_eq_dot y hyd] at hy)

/-! ### Target Resolver theorems (claims C4 and C5) -/

/-- C4: for every version string v ending in the unreleased marker '+',
`is_unreleased(v)` is true and `default_url` computes the URL from v with
the trailing marker stripped; concretely, version "2.5.1+" yields the URL
ending in CNTK-Samples-2-5-1.zip. -/
theorem c4_unreleased_marker (v : String) :
    module_is_unreleased (v ++ "+") = true ∧
    default_sample_url (v ++ "+") =
      "https://cntk.ai/Samples/CNTK-Samples-" ++
        String.mk (py_capwords '-' (py_replace_char '.' '-' v.data)) ++ ".zip" ∧
    default_sample_url "2.5.1+" = "https://cntk.ai/Samples/CNTK-Samples-2-5-1.zip" := by
  have hdata : (v ++ "+").data = v.data ++ ['+'] := by
    rw [String.data_append]
  have hmark : module_is_unreleased (v ++ "+") = true := by
    unfold module_is_unreleased
    rw [hdata]
    simp [py_endswith_char, List.getLast?_concat]
  refine ⟨hmark, ?_, by rfl⟩
  unfold default_sample_url
  rw [hmark, hdata]
  simp [List.dropLast_concat]

/-- C5: for every version string of the form a.b.c (components free of '.'
and '-', overall string not ending in the unreleased marker),
`default_url` yields the fixed template
`https://cntk.ai/Samples/CNTK-Samples-V.zip` where V is the components
dash-joined and title-cased, and V contains no residual dots. -/
theorem c5_default_url_form (a b c : List Char)
    (hadot : '.' ∉ a) (hbdot : '.' ∉ b) (hcdot : '.' ∉ c)
    (hadash : '-' ∉ a) (hbdash : '-' ∉ b) (hcdash : '-' ∉ c)
    (hplus : py_endswith_char '+' (a ++ '.' :: (b ++ '.' :: c)) = false) :
    default_sample_url (String.mk (a ++ '.' :: (b ++ '.' :: c))) =
      "https://cntk.ai/Samples/CNTK-Samples-" ++
        String.mk (py_capitalize a ++ '-' :: (py_capitalize b ++ '-' :: py_capitalize c)) ++
        ".zip" ∧
    '.' ∉ py_capitalize a ++ '-' :: (py_capitalize b ++ '-' :: py_capitalize c) := by
  have hrep : py_replace_char '.' '-' (a ++ '.' :: (b ++ '.' :: c)) =
      a ++ '-' :: (b ++ '-' :: c) := by
    rw [py_replace_char_append, py_replace_char_cons_self, py_replace_char_append,
        py_replace_char_cons_self, py_replace_char_of_not_mem _ _ _ hadot,
        py_replace_char_of_not_mem _ _ _ hbdot, py_replace_char_of_not_mem _ _ _ hcdot]
  constructor
  · unfold default_sample_url module_is_unreleased
    rw [show (String.mk (a ++ '.' :: (b ++ '.' :: c))).data = a ++ '.' :: (b ++ '.' :: c) from rfl]
    rw [hplus]
    simp only [Bool.false_eq_true, if_false]
    rw [hrep, py_capwords_dash_components a b c hadash hbdash hcdash]
  · intro hm
    rcases List.mem_append.mp hm with h1 | h2
    · exact dot_not_mem_py_capitalize a hadot h1
    · rcases List.mem_cons.mp h2 with h3 | h4
      · exact absurd h3 (by decide)
      · rcases List.mem_append.mp h4 with h5 | h6
        · exact dot_not_mem_py_capitalize b hbdot h5
        · rcases List.mem_cons.mp h6 with h7 | h8
          · exact absurd h7 (by decide)
          · exact dot_not_mem_py_capitalize c hcdot h8

/-- Witness for C5 at the concrete version "2.5.1". -/
theorem c5_witness :
    (('.' ∉ (['2'] : List Char)) ∧ ('.' ∉ (['5'] : List Char)) ∧ ('.' ∉ (['1'] : List Char)) ∧
     ('-' ∉ (['2'] : List Char)) ∧ ('-' ∉ (['5'] : List Char)) ∧ ('-' ∉ (['1'] : List Char)) ∧
     py_endswith_char '+' (['2'] ++ '.' :: (['5'] ++ '.' :: ['1'])) = false) ∧
    (default_sample_url (String.mk (['2'] ++ '.' :: (['5'] ++ '.' :: ['1']))) =
      "https://cntk.ai/Samples/CNTK-Samples-" ++
        String.mk (py_capitalize ['2'] ++ '-' :: (py_capitalize ['5'] ++ '-' :: py_capitalize ['1'])) ++
        ".zip" ∧
     '.' ∉ py_capitalize ['2'] ++ '-' :: (py_capitalize ['5'] ++ '-' :: py_capitalize ['1'])) :=
  ⟨⟨by decide, by decide, by decide, by decide, by decide, by decide, by decide⟩,
    c5_default_url_form ['2'] ['5'] ['1'] (by decide) (by decide) (by decide) (by decide)
      (by decide) (by decide) (by decide)⟩

/-! ### Helper lemmas about `install_samples` -/

theorem concat_url_ne_empty (s : String) :
    "https://cntk.ai/Samples/CNTK-Samples-" ++ s ++ ".zip" ≠ "" := by
  intro hc
  have h2 := congrArg String.length hc
  rw [String.length_append, String.length_append] at h2
  have h38 : ("https://cntk.ai/Samples/CNTK-Samples-" : String).length = 37 := by decide
  have h4 : (".zip" : String).length = 4 := by decide
  have h0 : ("" : String).length = 0 := by decide
  rw [h38, h4, h0] at h2
  omega

theorem default_sample_url_ne_empty (version : String) : default_sample_url version ≠ "" :=
  concat_url_ne_empty _

/-- `install_samples` never inspects `pip.main`'s return value. -/
theorem install_samples_pipRet_irrelevant (env : Env) (r : Int) (url : Option String)
    (localdir : String) (quiet : Bool) :
    install_samples { env with pipRet := r } url localdir quiet =
      install_samples env url localdir quiet := by
  obtain ⟨le, isd, num, fe, ex, req, pr, ver⟩ := env
  cases le <;> cases isd <;> cases num <;> cases fe <;> cases ex <;> cases req <;> rfl

theorem install_outcome_invalid_iff (env : Env) (url : Option String) (localdir : String)
    (quiet : Bool) :
    (install_samples env url localdir quiet).outcome = Except.error InstallError.invalidDestination ↔
      precondFail env = true := by
  by_cases hp : precondFail env = true
  · simp [install_samples, hp]
  · rw [Bool.not_eq_true] at hp
    obtain ⟨le, isd, num, fe, ex, req, pr, ver⟩ := env
    cases fe <;> cases ex <;> cases req <;>
      simp [install_samples, hp, tryBody, show_message, finallyCleanup, py_falsy]

/-! ### Claim theorems about `install_samples` -/

/-- C2: `install_samples` raises the InvalidDestination error (the source's
`ValueError`) if and only if the destination exists and is not an empty
directory; it passes when the path is absent or an existing empty
directory. -/
theorem c2_invalid_destination_iff (env : Env) (url : Option String) (localdir : String)
    (quiet : Bool) :
    (install_samples env url localdir quiet).outcome = Except.error InstallError.invalidDestination ↔
      (env.localdirLexists = true ∧
        (env.localdirIsdir = false ∨ env.localdirNumEntries ≠ 0)) := by
  rw [install_outcome_invalid_iff]
  obtain ⟨le, isd, num, fe, ex, req, pr, ver⟩ := env
  cases le <;> cases isd <;> simp [precondFail]

/-- C3: when the destination precondition fails, `install_samples` raises
before any side effect: no fetch, no extraction, no pip call, no temp
file. -/
theorem c3_no_side_effect_on_invalid_destination (env : Env) (url : Option String)
    (localdir : String) (quiet : Bool)
    (h1 : env.localdirLexists = true)
    (h2 : env.localdirIsdir = false ∨ env.localdirNumEntries ≠ 0) :
    (install_samples env url localdir quiet).outcome = Except.error InstallError.invalidDestination ∧
    (install_samples env url localdir quiet).fetchCalls = 0 ∧
    (install_samples env url localdir quiet).extractCalls = 0 ∧
    (install_samples env url localdir quiet).pipCalls = [] ∧
    (install_samples env url localdir quiet).tempFilesOnDisk = [] ∧
    (install_samples env url localdir quiet).messages = [] := by
  have hp : precondFail env = true := by
    unfold precondFail
    rw [h1]
    rcases h2 with h | h
    · rw [h]; simp
    · simp [h]
  simp [install_samples, hp]

def envC3 : Env :=
  { localdirLexists := true, localdirIsdir := true, localdirNumEntries := 3,
    fetch := .success "/tmp/tmpc3.zip", extractOk := true, reqFileIsfile := true,
    pipRet := 0, version := "2.5.1" }

/-- Witness for C3: an existing directory with three entries. -/
theorem c3_witness :
    (envC3.localdirLexists = true ∧
      (envC3.localdirIsdir = false ∨ envC3.localdirNumEntries ≠ 0)) ∧
    ((install_samples envC3 none "." false).outcome = Except.error InstallError.invalidDestination ∧
     (install_samples envC3 none "." false).fetchCalls = 0 ∧
     (install_samples envC3 none "." false).extractCalls = 0 ∧
     (install_samples envC3 none "." false).pipCalls = [] ∧
     (install_samples envC3 none "." false).tempFilesOnDisk = [] ∧
     (install_samples envC3 none "." false).messages = []) :=
  ⟨⟨rfl, Or.inr (by decide)⟩,
    c3_no_side_effect_on_invalid_destination envC3 none "." false rfl (Or.inr (by decide))⟩

/-- C1 (amended): on every exit path on which `urlretrieve` returned (so
`zip_filename` was assigned a fresh non-empty temp path), the temp file is
removed by the `finally` block — success, extraction failure, and both
requirements branches; a fetch failure leaves `zip_filename = None` and any
partial temp file is not removed. -/
theorem c1_cleanup_when_download_returns (env : Env) (url : Option String)
    (localdir : String) (quiet : Bool) (tmpname : String)
    (hfetch : env.fetch = FetchOutcome.success tmpname) (hne : tmpname ≠ "") :
    (install_samples env url localdir quiet).tempFilesOnDisk = [] := by
  have hbeq : (tmpname == "") = false := by
    simp only [beq_eq_false_iff_ne]
    exact hne
  by_cases hp : precondFail env = true
  · simp [install_samples, hp]
  · rw [Bool.not_eq_true] at hp
    cases hex : env.extractOk <;> cases hreq : env.reqFileIsfile <;>
      simp [install_samples, hp, tryBody, hfetch, hex, hreq, finallyCleanup, hbeq,
        show_message]

def envC1fail : Env :=
  { localdirLexists := false, localdirIsdir := false, localdirNumEntries := 0,
    fetch := .failure (some "/tmp/tmpc1partial.zip"), extractOk := true,
    reqFileIsfile := true, pipRet := 0, version := "2.5.1" }

/-- Counterexample to C1 as stated: a fetch failure after a partial
download leaves the partial temp file on disk, because `zip_filename` was
never assigned and the `finally` guard `if zip_filename:` skips the
removal. -/
theorem c1_counterexample :
    (install_samples envC1fail none "." true).outcome = Except.error InstallError.fetchError ∧
    (install_samples envC1fail none "." true).tempFilesOnDisk = ["/tmp/tmpc1partial.zip"] :=
  ⟨rfl, rfl⟩

def envC1ok : Env :=
  { localdirLexists := false, localdirIsdir := false, localdirNumEntries := 0,
    fetch := .success "/tmp/tmpc1ok.zip", extractOk := false,
    reqFileIsfile := true, pipRet := 0, version := "2.5.1" }

/-- Witness for C1 (amended), on the extraction-failure exit path. -/
theorem c1_witness :
    (envC1ok.fetch = FetchOutcome.success "/tmp/tmpc1ok.zip" ∧ "/tmp/tmpc1ok.zip" ≠ "") ∧
    (install_samples envC1ok none "." false).tempFilesOnDisk = [] :=
  ⟨⟨rfl, by decide⟩,
    c1_cleanup_when_download_returns envC1ok none "." false "/tmp/tmpc1ok.zip" rfl (by decide)⟩

/-- C6: after successful extraction with `requirements.txt` present,
`install_samples` calls `pip.main` with exactly
`['install', '-r', localdir + '/requirements.txt']`, its return value is
not inspected (changing it changes nothing), and the call completes
without raising. -/
theorem c6_pip_requirements_invocation (env : Env) (url : Option String)
    (localdir : String) (quiet : Bool) (r : Int) (tmpname : String)
    (hp : precondFail env = false)
    (hfetch : env.fetch = FetchOutcome.success tmpname)
    (hex : env.extractOk = true) (hreq : env.reqFileIsfile = true)
    (hd1 : localdir ≠ "") (hd2 : py_endswith_char '/' localdir.data = false) :
    (install_samples env url localdir quiet).pipCalls =
      [["install", "-r", localdir ++ "/requirements.txt"]] ∧
    (install_samples env url localdir quiet).outcome = Except.ok () ∧
    install_samples { env with pipRet := r } url localdir quiet =
      install_samples env url localdir quiet := by
  have hjoin : ospath_join localdir "requirements.txt" = localdir ++ "/requirements.txt" := by
    unfold ospath_join
    rw [if_neg (by decide), if_neg (by simp [hd1, hd2]), String.append_assoc]
    congr 1
  refine ⟨?_, ?_, install_samples_pipRet_irrelevant env r url localdir quiet⟩ <;>
    simp [install_samples, hp, tryBody, hfetch, hex, hreq, hjoin, show_message]

def envC6 : Env :=
  { localdirLexists := false, localdirIsdir := false, localdirNumEntries := 0,
    fetch := .success "/tmp/tmpc6.zip", extractOk := true,
    reqFileIsfile := true, pipRet := 0, version := "2.5.1" }

/-- Witness for C6, with a failing pip return value 1. -/
theorem c6_witness :
    (precondFail envC6 = false ∧ envC6.fetch = FetchOutcome.success "/tmp/tmpc6.zip" ∧
      envC6.extractOk = true ∧ envC6.reqFileIsfile = true ∧
      ("out" : String) ≠ "" ∧ py_endswith_char '/' ("out" : String).data = false) ∧
    ((install_samples envC6 none "out" false).pipCalls =
        [["install", "-r", "out" ++ "/requirements.txt"]] ∧
     (install_samples envC6 none "out" false).outcome = Except.ok () ∧
     install_samples { envC6 with pipRet := 1 } none "out" false =
       install_samples envC6 none "out" false) :=
  ⟨⟨rfl, rfl, rfl, rfl, by decide, by decide⟩,
    c6_pip_requirements_invocation envC6 none "out" false 1 "/tmp/tmpc6.zip" rfl rfl rfl rfl
      (by decide) (by decide)⟩

/-- C7: after successful extraction with no `requirements.txt`, a
warning-level message is emitted (quiet is false here), no pip call is
made, and the call completes without raising. -/
theorem c7_missing_requirements_warning (env : Env) (url : Option String)
    (localdir : String) (tmpname : String)
    (hp : precondFail env = false)
    (hfetch : env.fetch = FetchOutcome.success tmpname)
    (hex : env.extractOk = true) (hreq : env.reqFileIsfile = false) :
    ("WARNING: file " ++ ospath_join localdir "requirements.txt" ++
        " does not exist, modules to run the samples may be missing") ∈
      (install_samples env url localdir false).messages ∧
    (install_samples env url localdir false).pipCalls = [] ∧
    (install_samples env url localdir false).outcome = Except.ok () := by
  refine ⟨?_, ?_, ?_⟩ <;>
    simp [install_samples, hp, tryBody, hfetch, hex, hreq, show_message]

def envC7 : Env :=
  { localdirLexists := false, localdirIsdir := false, localdirNumEntries := 0,
    fetch := .success "/tmp/tmpc7.zip", extractOk := true,
    reqFileIsfile := false, pipRet := 0, version := "2.5.1" }

/-- Witness for C7. -/
theorem c7_witness :
    (precondFail envC7 = false ∧ envC7.fetch = FetchOutcome.success "/tmp/tmpc7.zip" ∧
      envC7.extractOk = true ∧ envC7.reqFileIsfile = false) ∧
    (("WARNING: file " ++ ospath_join "out" "requirements.txt" ++
        " does not exist, modules to run the samples may be missing") ∈
      (install_samples envC7 none "out" false).messages ∧
     (install_samples envC7 none "out" false).pipCalls = [] ∧
     (install_samples envC7 none "out" false).outcome = Except.ok ()) :=
  ⟨⟨rfl, rfl, rfl, rfl⟩,
    c7_missing_requirements_warning envC7 none "out" "/tmp/tmpc7.zip" rfl rfl rfl rfl⟩

/-- C8: with quiet = true no message at all is emitted, on any path. -/
theorem c8_quiet_no_messages (env : Env) (url : Option String) (localdir : String) :
    (install_samples env url localdir true).messages = [] := by
  by_cases hp : precondFail env = true
  · simp [install_samples, hp]
  · rw [Bool.not_eq_true] at hp
    obtain ⟨le, isd, num, fe, ex, req, pr, ver⟩ := env
    cases fe <;> cases ex <;> cases req <;>
      simp [install_samples, hp, tryBody, show_message]

/-- C9 (amended): through the CLI, the url argument is never None — absent
a `-u` value it is the parser default `default_sample_url()` — and the
unreleased-version warning branch (`if not url:`) is taken on a CLI
invocation only when the user explicitly passes the empty string as the
url option. -/
theorem c9_cli_url_never_defaulted (env : Env) (localdir : String) (quiet : Bool)
    (version : String) (userUrl : Option String) (h : userUrl ≠ some "") :
    cli_url version none = default_sample_url version ∧
    (install_samples env (some (cli_url version userUrl)) localdir quiet).urlDefaulted = false := by
  refine ⟨rfl, ?_⟩
  by_cases hp : precondFail env = true
  · simp [install_samples, hp]
  · rw [Bool.not_eq_true] at hp
    have hne : cli_url version userUrl ≠ "" := by
      cases userUrl with
      | none => exact default_sample_url_ne_empty version
      | some u =>
        intro hc
        exact h (by rw [show cli_url version (some u) = u from rfl] at hc; rw [hc])
    have hbeq : (cli_url version userUrl == "") = false := by
      simp only [beq_eq_false_iff_ne]
      exact hne
    simp [install_samples, hp, py_falsy, hbeq]

def envC9 : Env :=
  { localdirLexists := false, localdirIsdir := false, localdirNumEntries := 0,
    fetch := .failure none, extractOk := true,
    reqFileIsfile := true, pipRet := 0, version := "2.6+" }

/-- Counterexample to C9 as stated: the CLI invocation `-u ""` passes the
empty string, which is falsy, so the `if not url:` branch is taken and on
an unreleased module version the warning is emitted. -/
theorem c9_counterexample :
    (install_samples envC9 (some (cli_url "2.6+" (some ""))) "." false).urlDefaulted = true ∧
    unreleased_warning ∈
      (install_samples envC9 (some (cli_url "2.6+" (some ""))) "." false).messages :=
  ⟨rfl, List.mem_cons_self _ _⟩

def envC9w : Env :=
  { localdirLexists := false, localdirIsdir := false, localdirNumEntries := 0,
    fetch := .failure none, extractOk := true,
    reqFileIsfile := true, pipRet := 0, version := "2.6+" }

/-- Witness for C9 (amended), with an explicit non-empty user url. -/
theorem c9_witness :
    (some "http://example.com/s.zip" : Option String) ≠ some "" ∧
    (cli_url "2.6+" none = default_sample_url "2.6+" ∧
     (install_samples envC9w (some (cli_url "2.6+" (some "http://example.com/s.zip")))
        "." false).urlDefaulted = false) :=
  ⟨by decide,
    c9_cli_url_never_defaulted envC9w "." false "2.6+" (some "http://example.com/s.zip")
      (by decide)⟩

/-- C10: a `None` url and an empty-string url are treated identically —
both are falsy, so both take the defaulting branch, use the
version-derived default URL, and (unreleased version, quiet false) emit
the unreleased warning. -/
theorem c10_falsy_url_equivalence (env : Env) (localdir : String) (quiet : Bool)
    (hp : precondFail env = false) :
    install_samples env (some "") localdir quiet = install_samples env none localdir quiet ∧
    (install_samples env none localdir quiet).urlDefaulted = true ∧
    (install_samples env none localdir quiet).urlUsed =
      some (default_sample_url env.version) ∧
    (module_is_unreleased env.version = true → quiet = false →
      unreleased_warning ∈ (install_samples env none localdir quiet).messages) := by
  refine ⟨rfl, ?_, ?_, ?_⟩
  · simp [install_samples, hp, py_falsy]
  · simp [install_samples, hp, py_falsy]
  · intro hunrel hq
    subst hq
    cases hfe : env.fetch <;> cases hex : env.extractOk <;> cases hreq : env.reqFileIsfile <;>
      simp [install_samples, hp, py_falsy, hunrel, tryBody, show_message, hfe, hex, hreq]

def envC10 : Env :=
  { localdirLexists := false, localdirIsdir := false, localdirNumEntries := 0,
    fetch := .success "/tmp/tmpc10.zip", extractOk := true,
    reqFileIsfile := true, pipRet := 0, version := "2.6+" }

/-- Witness for C10. -/
theorem c10_witness :
    precondFail envC10 = false ∧
    (install_samples envC10 (some "") "." false = install_samples envC10 none "." false ∧
     (install_samples envC10 none "." false).urlDefaulted = true ∧
     (install_samples envC10 none "." false).urlUsed =
       some (default_sample_url envC10.version) ∧
     (module_is_unreleased envC10.version = true → false = false →
       unreleased_warning ∈ (install_samples envC10 none "." false).messages)) :=
  ⟨rfl, c10_falsy_url_equivalence envC10 "." false rfl⟩

end SampleInstaller
